import Mathlib

/-!
Shallow embedding of the risk-map rule engine and safety validator of this
repository (backend/risk_map): `services/coordinate_mapper.py`,
`models/rules_engine.py` and the fallback/confidence code in `app.py`.

Python floats are modelled as exact rationals (ℚ).  The only genuinely
transcendental operations in the source — `math.cos`/`math.sin` on the 16
fixed angles `2*pi*i/16`, and normalisation of a vector by its Euclidean
length — are modelled by explicit oracle parameters (`FloatOps`), so every
definition stays computable; all comparisons against distance thresholds in
the source are of the form `sqrt s < m` with `m ≥ 0`, which is equivalent to
`s < m^2` and is embedded in that squared form.
-/

namespace RiskMap

/-- Models `Point` in `models/schemas.py`: a 2D pixel coordinate. -/
structure Point where
  x : ℚ
  y : ℚ
deriving DecidableEq, Repr

/-- Models `InjectionPoint` in `models/schemas.py`, restricted to the fields
the validator and the rule engine read or write (`label`, `position`,
`confidence`, `warnings`); the remaining fields (`code`, `depth`, …) are
copied through unchanged by every function embedded here. -/
structure InjectionPoint where
  label : String
  position : Point
  confidence : ℚ
  warnings : List String
deriving DecidableEq, Repr

/-- Models `RiskZone` in `models/schemas.py`, restricted to the fields read
by the validator (`name`, `polygon`, `severity`). -/
structure RiskZone where
  name : String
  polygon : List Point
  severity : String
deriving DecidableEq, Repr

/-! ## Coordinate mapper (`services/coordinate_mapper.py`) -/

/-- Squared Euclidean distance; `_point_distance` in the source returns its
square root, and every use compares it against a nonnegative threshold. -/
def distSq (p q : Point) : ℚ :=
  (p.x - q.x) * (p.x - q.x) + (p.y - q.y) * (p.y - q.y)

/-- Models `_point_to_line_segment_distance` (squared): project the point on
the segment, clamp the parameter to `[0, 1]`, return the squared distance to
the closest point.  The degenerate-segment branch matches the source. -/
def pointToSegmentDistSq (p a b : Point) : ℚ :=
  let dx := b.x - a.x
  let dy := b.y - a.y
  if dx = 0 ∧ dy = 0 then
    distSq p a
  else
    let t := ((p.x - a.x) * dx + (p.y - a.y) * dy) / (dx * dx + dy * dy)
    let t := max 0 (min 1 t)
    distSq p ⟨a.x + t * dx, a.y + t * dy⟩

/-- The edge list `(polygon[i], polygon[(i+1) % n])` used by
`_point_to_polygon_distance`. -/
def polygonEdges (poly : List Point) : List (Point × Point) :=
  poly.zip (poly.rotate 1)

/-- Models the comparison `_point_to_polygon_distance(point, polygon) < m`
for a nonnegative threshold `m`: the distance is the minimum over all edges
of the point-to-segment distance (infinite when the polygon has fewer than
3 vertices), so the comparison holds iff some edge is closer than `m`. -/
def pointWithinOfPolygon (p : Point) (poly : List Point) (m : ℚ) : Bool :=
  3 ≤ poly.length && (polygonEdges poly).any fun e =>
    pointToSegmentDistSq p e.1 e.2 < m * m

/-- Models the `min_distance_to_danger` table (with `.get(severity, 10.0)`). -/
def minDistanceToDanger (severity : String) : ℚ :=
  if severity = "high" then 15
  else if severity = "critical" then 20
  else if severity = "moderate" then 8
  else if severity = "low" then 0
  else 10

/-- Whether an injection point violates one zone's clearance threshold, i.e.
`distance < min_distance` inside `_check_danger_zone_distance`. -/
def violatesZone (p : InjectionPoint) (z : RiskZone) : Bool :=
  pointWithinOfPolygon p.position z.polygon (minDistanceToDanger z.severity)

/-- The violation message appended for one violating zone.  The source also
embeds the numeric distance (`f"... ({distance:.1f}px < ...)"`); the model
keeps the zone-identifying text, one message per violating zone. -/
def violationMsg (z : RiskZone) : String :=
  "Too close to " ++ z.name

/-- Models the `violations` list built by `_check_danger_zone_distance`:
one message for every zone whose clearance threshold is violated, in zone
order. -/
def dangerZoneViolations (p : InjectionPoint) (zones : List RiskZone) : List String :=
  (zones.filter fun z => violatesZone p z).map violationMsg

/-- Models lines 87–95 of `validate_injection_safety`: when the zone check
reports violations the point is kept, its warnings are extended by the
violation messages and its confidence is multiplied by `0.5` (once). -/
def demotePoint (zones : List RiskZone) (p : InjectionPoint) : InjectionPoint :=
  let violations := dangerZoneViolations p zones
  if violations.isEmpty then p
  else { p with warnings := p.warnings ++ violations,
                confidence := p.confidence * (1 / 2) }

/-- Models `_check_point_spacing`: true iff the new point is at distance at
least `minDist` from every already-accepted point. -/
def checkPointSpacing (p : InjectionPoint) (existing : List InjectionPoint)
    (minDist : ℚ) : Bool :=
  existing.all fun q => !(distSq p.position q.position < minDist * minDist)

/-- Models the per-area `safety_rules` table. -/
structure AreaRules where
  maxPoints : ℕ
  minPointDistance : ℚ
  boundaryBuffer : ℚ
deriving Repr

/-- The `safety_rules` dictionary, with `.get(area, safety_rules["lips"])`. -/
def safetyRules (area : String) : AreaRules :=
  if area = "lips" then ⟨8, 5, 3⟩
  else if area = "cheeks" then ⟨10, 8, 5⟩
  else if area = "chin" then ⟨6, 10, 5⟩
  else if area = "forehead" then ⟨8, 12, 8⟩
  else ⟨8, 5, 3⟩

/-- One iteration of the `for point in injection_points` loop in
`validate_injection_safety`: demote on zone violations, then append to the
accepted list iff the spacing check against the accepted list passes. -/
def validateStep (zones : List RiskZone) (minDist : ℚ)
    (acc : List InjectionPoint) (p : InjectionPoint) : List InjectionPoint :=
  let p' := demotePoint zones p
  if checkPointSpacing p' acc minDist then acc ++ [p'] else acc

/-- A stable insertion: `lt a b` means `a` must come strictly before `b`;
an element is inserted after every element it is not strictly before. -/
def insertSorted {α : Type} (lt : α → α → Bool) (x : α) : List α → List α
  | [] => [x]
  | y :: ys => if lt x y then x :: y :: ys else y :: insertSorted lt x ys

/-- Stable sort (insertion sort, later elements inserted after equal keys) —
the model of Python's stable `list.sort`. -/
def stableSort {α : Type} (lt : α → α → Bool) (l : List α) : List α :=
  l.foldl (fun acc x => insertSorted lt x acc) []

/-- The comparison used by `sort(key=lambda p: p.confidence, reverse=True)`:
descending confidence, ties kept in original order. -/
def confidenceDesc (a b : InjectionPoint) : Bool :=
  b.confidence < a.confidence

/-- Models `CoordinateMapper.validate_injection_safety`: demote points that
violate zone clearances, drop points that fail the spacing check against the
already-accepted points, then truncate to the area's `max_points` by
descending confidence. -/
def validate_injection_safety (points : List InjectionPoint)
    (zones : List RiskZone) (area : String) : List InjectionPoint :=
  if points.isEmpty then []
  else
    let rules := safetyRules area
    let validated := points.foldl (validateStep zones rules.minPointDistance) []
    if rules.maxPoints < validated.length then
      (stableSort confidenceDesc validated).take rules.maxPoints
    else validated

/-- Models `_get_polygon_bbox`. -/
structure Bbox where
  x : ℚ
  y : ℚ
  width : ℚ
  height : ℚ
deriving DecidableEq, Repr

/-- Axis-aligned bounding box of a polygon (zero box for the empty list),
as in `_get_polygon_bbox`. -/
def getPolygonBbox (poly : List Point) : Bbox :=
  match poly with
  | [] => ⟨0, 0, 0, 0⟩
  | p :: ps =>
    let minX := ps.foldl (fun m q => min m q.x) p.x
    let maxX := ps.foldl (fun m q => max m q.x) p.x
    let minY := ps.foldl (fun m q => min m q.y) p.y
    let maxY := ps.foldl (fun m q => max m q.y) p.y
    ⟨minX, minY, maxX - minX, maxY - minY⟩

/-- Models `_zones_overlap_significantly` (threshold 0.5): bbox intersection
area over the smaller bbox area.  A zero smaller area would raise
`ZeroDivisionError` in the source, caught by its `except` returning `False`;
that branch is written out explicitly here (it is in fact unreachable, since
a zero-area bbox never passes the intersection test). -/
def zonesOverlapSignificantly (z1 z2 : RiskZone) : Bool :=
  let b1 := getPolygonBbox z1.polygon
  let b2 := getPolygonBbox z2.polygon
  let ix1 := max b1.x b2.x
  let iy1 := max b1.y b2.y
  let ix2 := min (b1.x + b1.width) (b2.x + b2.width)
  let iy2 := min (b1.y + b1.height) (b2.y + b2.height)
  if ix2 ≤ ix1 ∨ iy2 ≤ iy1 then false
  else
    let intersectArea := (ix2 - ix1) * (iy2 - iy1)
    let area1 := b1.width * b1.height
    let area2 := b2.width * b2.height
    let smaller := min area1 area2
    if smaller = 0 then false
    else decide ((1 : ℚ) / 2 < intersectArea / smaller)

/-- The `severity_order` dictionary with `.get(z.severity, 3)`. -/
def severityOrder (severity : String) : ℕ :=
  if severity = "critical" then 0
  else if severity = "high" then 1
  else if severity = "moderate" then 2
  else if severity = "low" then 3
  else 3

/-- The comparison of the stable severity sort in
`filter_overlapping_zones`. -/
def severityAsc (a b : RiskZone) : Bool :=
  severityOrder a.severity < severityOrder b.severity

/-- Models `CoordinateMapper.filter_overlapping_zones`: sort by severity
(critical first, stable), then greedily keep each zone unless it overlaps
significantly with an already-kept zone. -/
def filter_overlapping_zones (zones : List RiskZone) : List RiskZone :=
  if zones.length ≤ 1 then zones
  else
    (stableSort severityAsc zones).foldl
      (fun kept z =>
        if kept.any fun e => zonesOverlapSignificantly z e then kept
        else kept ++ [z])
      []

/-! ## Rules engine (`models/rules_engine.py`) -/

/-- Oracle for the two floating-point operations of `rules_engine.py` that
have no exact rational value: `cosSin16 i` stands for
`(math.cos(2*pi*i/16), math.sin(2*pi*i/16))` as used by
`_create_circle_polygon` / `_create_ellipse_polygon`, and `unit dx dy`
stands for `(dx, dy)` divided by its Euclidean length (only consulted when
`(dx, dy) ≠ (0, 0)`), as used by `_create_line_buffer` and
`_expand_polygon`.  Everything else in the engine is exact. -/
structure FloatOps where
  cosSin16 : Fin 16 → ℚ × ℚ
  unit : ℚ → ℚ → ℚ × ℚ

/-- The `offset_percent` dictionary of a rule: keys `x`, `y` and the
optional `x_right` consulted by the bilateral circle rule. -/
structure OffsetPercent where
  x : ℚ
  y : ℚ
  xRight : Option ℚ
deriving DecidableEq, Repr

/-- A rule document's `rule` dictionary, with one `Option` field per key the
seven interpreters read via `rule.get(key, default)`; `none` models an
absent key.  (`depth_offset` is read by `_apply_bone_point` but never used,
so it is omitted.) -/
structure Rule where
  type : String
  anchors : List String
  anchorWeights : Option (List ℚ)
  offsetPercent : Option OffsetPercent
  bufferPx : Option ℚ
  radiusPx : Option ℚ
  width : Option ℚ
  height : Option ℚ
  shape : Option String
  bilateral : Option Bool
  boneDirection : Option String
deriving DecidableEq, Repr

/-- What a rule interpreter returns: a single point
(`landmark_vector_offset`, `bone_point`) or a polygon (the other five). -/
inductive RuleOutput where
  | point (p : Point)
  | poly (ps : List Point)
deriving DecidableEq, Repr

/-- Models `NormalizedFace` as consumed by `_create_rule_context`:
normalized landmark list, face bounding box and normalization confidence. -/
structure NormalizedFace where
  landmarks : List Point
  faceBbox : Bbox
  confidence : ℚ
deriving Repr

/-- Models `RuleContext`: named pixel-space landmarks (a dictionary, modelled
as an association list with distinct keys), face bbox, image shape as
`(height, width)` — the numpy `image.shape` order used by the callers — and
the normalization confidence. -/
structure RuleContext where
  landmarks : List (String × Point)
  faceBbox : Bbox
  imageShape : ℕ × ℕ
  confidence : ℚ
deriving Repr

/-- The MediaPipe `landmark_mapping` table of `_create_rule_context`. -/
def landmarkMapping : List (String × ℕ) :=
  [("left_eye_inner", 133), ("left_eye_outer", 33),
   ("right_eye_inner", 362), ("right_eye_outer", 263),
   ("nose_tip", 1), ("nose_bridge_high", 6),
   ("left_alae", 31), ("right_alae", 261),
   ("upper_lip_center", 13), ("lower_lip_center", 14),
   ("left_mouth_corner", 61), ("right_mouth_corner", 291),
   ("left_eyebrow_inner", 70), ("left_eyebrow_center", 107),
   ("left_eyebrow_peak", 105), ("right_eyebrow_inner", 300),
   ("right_eyebrow_center", 336), ("right_eyebrow_peak", 334),
   ("chin_tip", 175), ("forehead_center", 9)]

/-- Midpoint of two points, used for the derived landmarks. -/
def midpointOf (a b : Point) : Point :=
  ⟨(a.x + b.x) / 2, (a.y + b.y) / 2⟩

/-- The derived landmarks added at the end of `_create_rule_context`. -/
def addDerivedLandmarks (lms : List (String × Point)) : List (String × Point) :=
  let lms :=
    match lms.lookup "left_eye_inner", lms.lookup "left_eye_outer" with
    | some a, some b => lms ++ [("left_eye_center", midpointOf a b)]
    | _, _ => lms
  let lms :=
    match lms.lookup "right_eye_inner", lms.lookup "right_eye_outer" with
    | some a, some b => lms ++ [("right_eye_center", midpointOf a b)]
    | _, _ => lms
  match lms.lookup "left_eyebrow_center", lms.lookup "right_eyebrow_center" with
  | some a, some b => lms ++ [("eyebrow_center_midpoint", midpointOf a b)]
  | _, _ => lms

/-- Models `_create_rule_context`: when at least 468 landmarks are present,
convert each mapped landmark from normalized `[0,1]` space back to pixels
via the face bbox (skipping out-of-range indices), then add the derived
landmarks.  `imageShape` is `(height, width)`. -/
def createRuleContext (face : NormalizedFace) (imageShape : ℕ × ℕ) : RuleContext :=
  let base : List (String × Point) :=
    if 468 ≤ face.landmarks.length then
      landmarkMapping.filterMap fun ni =>
        (face.landmarks.get? ni.2).map fun p =>
          (ni.1, ⟨p.x * face.faceBbox.width + face.faceBbox.x,
                  p.y * face.faceBbox.height + face.faceBbox.y⟩)
    else []
  ⟨addDerivedLandmarks base, face.faceBbox, imageShape, face.confidence⟩

/-- The anchors of a rule that resolve to a known landmark, in order. -/
def resolvedAnchors (anchors : List String) (ctx : RuleContext) : List Point :=
  anchors.filterMap fun name => ctx.landmarks.lookup name

/-- Models `_apply_landmark_vector_offset`: anchor-weighted sum over the
anchors that resolve, divided by the total of all listed weights, plus a
bbox-relative percentage offset; the result is clamped to the image bounds.
Returns `none` when the anchor list is empty or the total weight is zero.
(The source reads `offset_percent["x"]` / `["y"]`; a dictionary missing one
of those keys would raise, caught by the interpreter's `except` — the model
gives the dictionary both keys.) -/
def apply_landmark_vector_offset (rule : Rule) (ctx : RuleContext) : Option Point :=
  let anchors := rule.anchors
  let weights := rule.anchorWeights.getD (List.replicate anchors.length 1)
  let off := rule.offsetPercent.getD ⟨0, 0, none⟩
  if anchors.length = 0 then none
  else
    let totalWeight := weights.sum
    let wsum :=
      (List.range anchors.length).foldl
        (fun (acc : ℚ × ℚ) i =>
          match (anchors.get? i).bind fun name => ctx.landmarks.lookup name with
          | none => acc
          | some p =>
            let w := (weights.get? i).getD 1
            (acc.1 + p.x * w, acc.2 + p.y * w))
        (0, 0)
    if totalWeight = 0 then none
    else
      let baseX := wsum.1 / totalWeight
      let baseY := wsum.2 / totalWeight
      let finalX := baseX + off.x * ctx.faceBbox.width
      let finalY := baseY + off.y * ctx.faceBbox.height
      some ⟨max 0 (min ((ctx.imageShape.2 : ℚ) - 1) finalX),
            max 0 (min ((ctx.imageShape.1 : ℚ) - 1) finalY)⟩

/-- Models `_create_circle_polygon` (16 vertices): vertex `i` is the centre
plus the radius times the oracle's value for `(cos, sin)` at angle
`2*pi*i/16`. -/
def createCirclePolygon (ops : FloatOps) (center : Point) (radius : ℚ) : List Point :=
  (List.finRange 16).map fun i =>
    ⟨center.x + radius * (ops.cosSin16 i).1, center.y + radius * (ops.cosSin16 i).2⟩

/-- Models `_create_ellipse_polygon` (16 vertices). -/
def createEllipsePolygon (ops : FloatOps) (center : Point) (width height : ℚ) :
    List Point :=
  (List.finRange 16).map fun i =>
    ⟨center.x + (width / 2) * (ops.cosSin16 i).1,
     center.y + (height / 2) * (ops.cosSin16 i).2⟩

/-- `"left" in anchor_name` (Python substring test). -/
def strContainsLeft (s : String) : Bool :=
  2 ≤ (s.splitOn "left").length

/-- Models `_apply_circle_around_landmark`: one 16-gon per resolved anchor
(offset by a bbox-relative percentage), plus a mirrored 16-gon when
`bilateral` is set and the anchor name contains `"left"` and its
`left → right` renaming resolves; all vertex lists are concatenated, and
`none` is returned when the result is empty. -/
def apply_circle_around_landmark (ops : FloatOps) (rule : Rule) (ctx : RuleContext) :
    Option (List Point) :=
  let radius := rule.radiusPx.getD 10
  let off := rule.offsetPercent.getD ⟨0, 0, none⟩
  let bilateral := rule.bilateral.getD false
  let circles :=
    rule.anchors.foldl
      (fun acc name =>
        match ctx.landmarks.lookup name with
        | none => acc
        | some center =>
          let offX := off.x * ctx.faceBbox.width
          let offY := off.y * ctx.faceBbox.height
          let acc := acc ++ createCirclePolygon ops
            ⟨center.x + offX, center.y + offY⟩ radius
          if bilateral ∧ strContainsLeft name then
            match ctx.landmarks.lookup (name.replace "left" "right") with
            | some rc =>
              let rOffX := (off.xRight.getD (-off.x)) * ctx.faceBbox.width
              acc ++ createCirclePolygon ops ⟨rc.x + rOffX, rc.y + offY⟩ radius
            | none => acc
          else acc)
      []
  if circles.isEmpty then none else some circles

/-- Models `_apply_ellipse_around_landmarks`: centre coordinates are the
sums over the anchors that resolve, divided by the number of *listed*
anchors (this is the source's `/ len(anchors)`), then a 16-gon of the given
width/height around that centre. -/
def apply_ellipse_around_landmarks (ops : FloatOps) (rule : Rule) (ctx : RuleContext) :
    Option (List Point) :=
  let anchors := rule.anchors
  let width := rule.width.getD 20
  let height := rule.height.getD 15
  if anchors.length = 0 then none
  else
    let resolved := resolvedAnchors anchors ctx
    let centerX := (resolved.map Point.x).sum / (anchors.length : ℚ)
    let centerY := (resolved.map Point.y).sum / (anchors.length : ℚ)
    some (createEllipsePolygon ops ⟨centerX, centerY⟩ width height)

/-- Models `_expand_polygon`: move every vertex away from the centroid by
`bufferPx` along the normalized centroid-to-vertex direction (vertices at
the centroid are left in place, the `length > 0` guard). -/
def expandPolygon (ops : FloatOps) (polygon : List Point) (bufferPx : ℚ) :
    List Point :=
  if polygon.length < 3 then polygon
  else
    let cx := (polygon.map Point.x).sum / (polygon.length : ℚ)
    let cy := (polygon.map Point.y).sum / (polygon.length : ℚ)
    polygon.map fun p =>
      let dx := p.x - cx
      let dy := p.y - cy
      if dx = 0 ∧ dy = 0 then p
      else
        let u := ops.unit dx dy
        ⟨p.x + u.1 * bufferPx, p.y + u.2 * bufferPx⟩

/-- Models `_apply_polygon_from_landmarks`: at least 3 listed and 3 resolved
anchors required; the resolved anchors are the vertices, expanded outward
when `buffer_px > 0`. -/
def apply_polygon_from_landmarks (ops : FloatOps) (rule : Rule) (ctx : RuleContext) :
    Option (List Point) :=
  let bufferPx := rule.bufferPx.getD 0
  if rule.anchors.length < 3 then none
  else
    let pts := resolvedAnchors rule.anchors ctx
    if pts.length < 3 then none
    else if 0 < bufferPx then some (expandPolygon ops pts bufferPx)
    else some pts

/-- Models `_apply_mask_from_landmarks`: the resolved anchors as a polygon,
requiring at least 3 listed and 3 resolved anchors. -/
def apply_mask_from_landmarks (rule : Rule) (ctx : RuleContext) :
    Option (List Point) :=
  if rule.anchors.length < 3 then none
  else
    let pts := resolvedAnchors rule.anchors ctx
    if 3 ≤ pts.length then some pts else none

/-- Models `_apply_bone_point`: take the first anchor; when the direction is
`"inward"`, move it 10% of the way toward the face-bbox centre, otherwise
leave it unchanged.  A missing first anchor raises `KeyError` in the source,
caught by its `except` returning `None`.  The result is *not* clamped to the
image bounds. -/
def apply_bone_point (rule : Rule) (ctx : RuleContext) : Option Point :=
  let dir := rule.boneDirection.getD "inward"
  if rule.anchors.length = 0 then none
  else
    match rule.anchors.head?.bind fun n => ctx.landmarks.lookup n with
    | none => none
    | some base =>
      if dir = "inward" then
        let cx := ctx.faceBbox.x + ctx.faceBbox.width / 2
        let cy := ctx.faceBbox.y + ctx.faceBbox.height / 2
        some ⟨base.x + (cx - base.x) * (1 / 10), base.y + (cy - base.y) * (1 / 10)⟩
      else some ⟨base.x + 0, base.y + 0⟩

/-- The direction `(dx, dy)` used at index `i` of `_create_line_buffer`:
first point uses the direction to the next, last the direction from the
previous, interior points the average of the two. -/
def bufferDirection (pts : List Point) (i : ℕ) : ℚ × ℚ :=
  let at_ := fun j => (pts.get? j).getD ⟨0, 0⟩
  let p := at_ i
  if i = 0 then ((at_ 1).x - p.x, (at_ 1).y - p.y)
  else if i = pts.length - 1 then (p.x - (at_ (i - 1)).x, p.y - (at_ (i - 1)).y)
  else
    let dx1 := p.x - (at_ (i - 1)).x
    let dy1 := p.y - (at_ (i - 1)).y
    let dx2 := (at_ (i + 1)).x - p.x
    let dy2 := (at_ (i + 1)).y - p.y
    ((dx1 + dx2) / 2, (dy1 + dy2) / 2)

/-- Models `_create_line_buffer`: a forward pass offsetting every point with
a nonzero direction along the left perpendicular, then a reverse pass along
the right perpendicular. -/
def createLineBuffer (ops : FloatOps) (linePoints : List Point) (bufferPx : ℚ) :
    List Point :=
  if linePoints.length < 2 then []
  else
    let offsetAt := fun (sign : ℚ) (i : ℕ) =>
      let p := (linePoints.get? i).getD ⟨0, 0⟩
      let d := bufferDirection linePoints i
      if d.1 = 0 ∧ d.2 = 0 then none
      else
        let u := ops.unit d.1 d.2
        some (⟨p.x + sign * (-u.2) * bufferPx, p.y + sign * u.1 * bufferPx⟩ : Point)
    (List.range linePoints.length).filterMap (offsetAt 1) ++
      ((List.range linePoints.length).reverse).filterMap (offsetAt (-1))

/-- Models `_create_smooth_curve` (piecewise linear interpolation with 20
interior samples per segment, then the final point). -/
def createSmoothCurve (points : List Point) (numInterp : ℕ) : List Point :=
  if points.length < 2 then points
  else
    let curve :=
      (List.range (points.length - 1)).flatMap fun i =>
        match points.get? i, points.get? (i + 1) with
        | some s, some e =>
          (List.range numInterp).map fun j =>
            let t : ℚ := (j : ℚ) / (numInterp : ℚ)
            (⟨s.x + (e.x - s.x) * t, s.y + (e.y - s.y) * t⟩ : Point)
        | _, _ => []
    curve ++ points.getLast?.toList

/-- Models `_apply_polyline_buffer`: at least 2 listed and 2 resolved
anchors; optionally smooth the polyline, then buffer it. -/
def apply_polyline_buffer (ops : FloatOps) (rule : Rule) (ctx : RuleContext) :
    Option (List Point) :=
  let bufferPx := rule.bufferPx.getD 5
  let shape := rule.shape.getD "straight_line"
  if rule.anchors.length < 2 then none
  else
    let anchorPoints := resolvedAnchors rule.anchors ctx
    if anchorPoints.length < 2 then none
    else
      let polyline :=
        if shape = "curved_polyline" then createSmoothCurve anchorPoints 20
        else anchorPoints
      some (createLineBuffer ops polyline bufferPx)

/-- The keys of `supported_rule_types`. -/
def supportedRuleTypes : List String :=
  ["landmark_vector_offset", "polyline_buffer_from_landmarks",
   "circle_around_landmark", "ellipse_around_landmarks",
   "polygon_from_landmarks", "bone_point", "mask_from_landmark_loop"]

/-- The dispatch `supported_rule_types[rule_type](rule, context)` for a
supported rule type (`none` both for an unsupported type — the callers
check membership in `supportedRuleTypes` first — and for a rule that
returns `None`). -/
def applyRule (ops : FloatOps) (rule : Rule) (ctx : RuleContext) : Option RuleOutput :=
  if rule.type = "landmark_vector_offset" then
    (apply_landmark_vector_offset rule ctx).map RuleOutput.point
  else if rule.type = "polyline_buffer_from_landmarks" then
    (apply_polyline_buffer ops rule ctx).map RuleOutput.poly
  else if rule.type = "circle_around_landmark" then
    (apply_circle_around_landmark ops rule ctx).map RuleOutput.poly
  else if rule.type = "ellipse_around_landmarks" then
    (apply_ellipse_around_landmarks ops rule ctx).map RuleOutput.poly
  else if rule.type = "polygon_from_landmarks" then
    (apply_polygon_from_landmarks ops rule ctx).map RuleOutput.poly
  else if rule.type = "bone_point" then
    (apply_bone_point rule ctx).map RuleOutput.point
  else if rule.type = "mask_from_landmark_loop" then
    (apply_mask_from_landmarks rule ctx).map RuleOutput.poly
  else none

/-- An injection-point rule document (`point_def`), restricted to the fields
`apply_injection_point_rules` reads into the fields of the modelled
`InjectionPoint`. -/
structure PointDef where
  label : String
  rule : Rule
  warnings : List String
deriving DecidableEq, Repr

/-- One iteration of the `for point_def in point_definitions` loop of
`apply_injection_point_rules`: skip unsupported rule types, skip rules that
return `None`, and accept single points.  A rule that returns a polygon
either fails pydantic validation of `position` (non-empty list, the raised
error is caught and the document skipped) or is falsy (empty list), so it
never yields an injection point. -/
def injectionPointStep (ops : FloatOps) (ctx : RuleContext)
    (acc : List InjectionPoint) (d : PointDef) : List InjectionPoint :=
  if d.rule.type ∈ supportedRuleTypes then
    match applyRule ops d.rule ctx with
    | some (RuleOutput.point p) =>
      acc ++ [⟨d.label, p, ctx.confidence * (9 / 10), d.warnings⟩]
    | some (RuleOutput.poly _) => acc
    | none => acc
  else acc

/-- Models `RulesEngine.apply_injection_point_rules`: build the rule context
once, then process every document, skipping any that fails; the per-document
`try`/`except` of the source is modelled by the `Option`-valued rules, so
the batch is a total function. -/
def apply_injection_point_rules (ops : FloatOps) (defs : List PointDef)
    (face : NormalizedFace) (imageShape : ℕ × ℕ) : List InjectionPoint :=
  let ctx := createRuleContext face imageShape
  defs.foldl (injectionPointStep ops ctx) []

/-! ## Application layer (`app.py`) and template scaling -/

/-- A fallback-template point (`x_offset`, `y_offset` relative to the face
centre, plus its label), as consumed by
`CoordinateMapper.scale_template_to_image`. -/
structure TemplatePoint where
  label : String
  xOffset : ℚ
  yOffset : ℚ
deriving DecidableEq, Repr

/-- Models `CoordinateMapper.scale_template_to_image`: assume a centred face
of 30% x 40% of the image (`imageShape` is `(height, width)`, the face
centre uses integer floor division), scale every template offset into
pixels, clamp 10px inside the image, and emit low-confidence (0.3) points
with the two template warnings. -/
def scale_template_to_image (templatePoints : List TemplatePoint)
    (imageShape : ℕ × ℕ) : List InjectionPoint :=
  if templatePoints.isEmpty then []
  else
    let h := imageShape.1
    let w := imageShape.2
    let faceWidth := (w : ℚ) * (3 / 10)
    let faceHeight := (h : ℚ) * (2 / 5)
    let faceCenterX : ℕ := w / 2
    let faceCenterY : ℕ := h / 2
    templatePoints.map fun tp =>
      let px := (faceCenterX : ℚ) + tp.xOffset * faceWidth
      let py := (faceCenterY : ℚ) + tp.yOffset * faceHeight
      { label := tp.label ++ " (approximated)",
        position := ⟨max 10 (min ((w : ℚ) - 10) px),
                     max 10 (min ((h : ℚ) - 10) py)⟩,
        confidence := 3 / 10,
        warnings := ["Template-based positioning - verification required",
                     "Anatomical landmarks not detected"] }

/-- The fields of `RiskMapResponse` that the fallback claims are about
(image size is `(width, height)`). -/
structure RiskMapResponse where
  imageSize : ℕ × ℕ
  riskZones : List RiskZone
  injectionPoints : List InjectionPoint
  confidenceScore : ℚ
  deterministicHash : String
  area : String
  fallbackUsed : Bool
  warnings : List String
  medicalDisclaimer : String
deriving Repr

/-- The three ways `_generate_fallback_response` can proceed:
`knowledge_loader.load_fallback_templates` returns a template, returns
`None`, or the fallback generation raises (caught by the outer
`except`). -/
inductive FallbackLoad where
  | template (pts : List TemplatePoint)
  | noTemplate
  | failure
deriving Repr

/-- Models `_generate_fallback_response` for an area, an image shape
`(height, width)` and the outcome of the template load:  template branch —
scaled template points, confidence 0.3;  no-template branch — empty result,
confidence 0.1;  error branch — empty result, confidence 0.0.  All three
branches set `fallback_used = True` and return no risk zones. -/
def generate_fallback_response (area : String) (imageShape : ℕ × ℕ)
    (load : FallbackLoad) : RiskMapResponse :=
  match load with
  | FallbackLoad.noTemplate =>
    { imageSize := (imageShape.2, imageShape.1),
      riskZones := [],
      injectionPoints := [],
      confidenceScore := 1 / 10,
      deterministicHash := "fallback",
      area := area,
      fallbackUsed := true,
      warnings := ["Automated detection failed - no template available",
                   "Manual assessment required for treatment planning"],
      medicalDisclaimer := "FALLBACK MODE: For trained medical professionals only." }
  | FallbackLoad.template pts =>
    { imageSize := (imageShape.2, imageShape.1),
      riskZones := [],
      injectionPoints := scale_template_to_image pts imageShape,
      confidenceScore := 3 / 10,
      deterministicHash := "fallback_template",
      area := area,
      fallbackUsed := true,
      warnings := ["Face landmarks not detected - using approximate template",
                   "Results are approximate - manual verification required",
                   "Consider retaking photo with better lighting/positioning"],
      medicalDisclaimer :=
        "TEMPLATE MODE: Approximate positioning only. Manual verification required." }
  | FallbackLoad.failure =>
    { imageSize := (imageShape.2, imageShape.1),
      riskZones := [],
      injectionPoints := [],
      confidenceScore := 0,
      deterministicHash := "minimal_fallback",
      area := area,
      fallbackUsed := true,
      warnings := ["Analysis failed - no results available",
                   "Manual assessment required",
                   "Consider retaking photo or seeking specialist consultation"],
      medicalDisclaimer := "FAILED ANALYSIS: Manual assessment required." }

/-- Models `_calculate_confidence_score`:
`0.5 * landmark + 0.3 * normalization + 0.2 * min(1, (points + zones)/8)`,
clamped to `[0.1, 1.0]`. -/
def calculate_confidence_score (landmarkConfidence normalizationConfidence : ℚ)
    (numInjectionPoints numRiskZones : ℕ) : ℚ :=
  let completenessFactor :=
    min 1 (((numInjectionPoints : ℚ) + (numRiskZones : ℚ)) / 8)
  let overallConfidence :=
    landmarkConfidence * (1 / 2) + normalizationConfidence * (3 / 10) +
      completenessFactor * (1 / 5)
  max (1 / 10) (min 1 overallConfidence)

/-! ## Concrete instances used by witnesses and counterexamples -/

/-- Rational stand-ins for the float values `(cos(2*pi*i/16),
sin(2*pi*i/16))`, exact at the axis angles and rounded to three decimals
elsewhere. -/
def cosSin16ApproxList : List (ℚ × ℚ) :=
  [(1, 0), (924/1000, 383/1000), (707/1000, 707/1000), (383/1000, 924/1000),
   (0, 1), (-383/1000, 924/1000), (-707/1000, 707/1000), (-924/1000, 383/1000),
   (-1, 0), (-924/1000, -383/1000), (-707/1000, -707/1000), (-383/1000, -924/1000),
   (0, -1), (383/1000, -924/1000), (707/1000, -707/1000), (924/1000, -383/1000)]

/-- A concrete `FloatOps` instantiation for the closed statements below.
None of the rule documents used in this file reaches the `unit` oracle
(no polyline-buffer or buffered-polygon document appears), so its value is
irrelevant there; the identity pair is supplied as a placeholder. -/
def floatOpsApprox : FloatOps :=
  ⟨fun i => (cosSin16ApproxList.get? i.val).getD (1, 0), fun dx dy => (dx, dy)⟩

/-- A normalized face whose 468 mesh points all sit at normalized
`(0.999, 0.999)` of a face bbox `{x:0, y:0, width:100, height:100}`, so
every named landmark maps to pixel `(99.9, 99.9)` — inside the face bbox of
a 100x100 image but beyond the `x ≤ width - 1` bound. -/
def faceEx : NormalizedFace :=
  ⟨List.replicate 468 ⟨999/1000, 999/1000⟩, ⟨0, 0, 100, 100⟩, 1⟩

/-- A `bone_point` document anchored at the nose tip with a non-"inward"
direction, so the anchor is returned unchanged (and unclamped). -/
def boneRuleEx : Rule :=
  ⟨"bone_point", ["nose_tip"], none, none, none, none, none, none, none, none,
   some "outward"⟩

/-- The `bone_point` rule document for the bounds counterexample. -/
def boneDocEx : PointDef := ⟨"Bone point", boneRuleEx, []⟩

/-- A plain `landmark_vector_offset` document anchored at the nose tip. -/
def lvoRuleEx : Rule :=
  ⟨"landmark_vector_offset", ["nose_tip"], none, none, none, none, none, none,
   none, none, none⟩

/-- Injection-point document wrapping `lvoRuleEx`. -/
def lvoDocEx : PointDef := ⟨"LVO point", lvoRuleEx, []⟩

/-- A document with a rule type outside the seven supported kinds. -/
def badDocEx : PointDef :=
  ⟨"Bad point",
   ⟨"mystery_rule", [], none, none, none, none, none, none, none, none, none⟩,
   []⟩

/-- A critical-severity triangular risk zone near the origin. -/
def zoneEx : RiskZone := ⟨"Arteria labialis", [⟨0, 0⟩, ⟨4, 0⟩, ⟨0, 4⟩], "critical"⟩

/-- A second (high-severity) zone also violated by `pEx`. -/
def zoneEx2 : RiskZone := ⟨"Nervus mentalis", [⟨2, 0⟩, ⟨6, 0⟩, ⟨2, 4⟩], "high"⟩

/-- A candidate injection point at `(1,1)`, within 20px of `zoneEx` and
15px of `zoneEx2`. -/
def pEx : InjectionPoint := ⟨"P1", ⟨1, 1⟩, 1, []⟩

/-- A point far from every fixture zone. -/
def pFarEx : InjectionPoint := ⟨"A", ⟨50, 50⟩, 1, []⟩

/-- A point 2px away from `pFarEx` — closer than the 5px lips spacing. -/
def pNearEx : InjectionPoint := ⟨"B", ⟨52, 50⟩, 1, []⟩

/-- Zone A of the de-duplication example: critical, bbox 0..10. -/
def zoneA : RiskZone :=
  ⟨"A", [⟨0, 0⟩, ⟨10, 0⟩, ⟨10, 10⟩, ⟨0, 10⟩], "critical"⟩

/-- Zone B of the de-duplication example: low severity, bbox 2..8 (entirely
inside A's bbox, so the overlap ratio over B's bbox area is 1). -/
def zoneB : RiskZone :=
  ⟨"B", [⟨2, 2⟩, ⟨8, 2⟩, ⟨8, 8⟩, ⟨2, 8⟩], "low"⟩

/-- A small rule context with a single known landmark `"a"` at `(50, 50)`. -/
def ctxSmallEx : RuleContext :=
  ⟨[("a", ⟨50, 50⟩)], ⟨0, 0, 100, 100⟩, (100, 100), 1⟩

/-- `landmark_vector_offset` document whose only anchor does not resolve
(default weights, so the total weight is 1, not 0). -/
def ruleNoResolveEx : Rule :=
  ⟨"landmark_vector_offset", ["b"], none, none, none, none, none, none, none,
   none, none⟩

/-- `landmark_vector_offset` document whose anchor weights sum to zero. -/
def ruleZeroWeightEx : Rule :=
  ⟨"landmark_vector_offset", ["a"], some [0], none, none, none, none, none,
   none, none, none⟩

/-- A rule context for the ellipse rule with one known landmark `"a"` at
`(10, 10)`. -/
def ctxEllipseEx : RuleContext :=
  ⟨[("a", ⟨10, 10⟩)], ⟨0, 0, 100, 100⟩, (100, 100), 1⟩

/-- An `ellipse_around_landmarks` document listing two anchors of which only
`"a"` resolves; width = height = 4. -/
def ruleEllipseEx : Rule :=
  ⟨"ellipse_around_landmarks", ["a", "b"], none, none, none, none, some 4,
   some 4, none, none, none⟩

/-- An `ellipse_around_landmarks` document all of whose anchors resolve. -/
def ruleEllipseOkEx : Rule :=
  ⟨"ellipse_around_landmarks", ["a"], none, none, none, none, some 4, some 4,
   none, none, none⟩

/-- The pixel coordinate every mapped landmark of `faceEx` lands on. -/
def pixelEx : Point := ⟨999/10, 999/10⟩

/-- The rule context built by `createRuleContext` from `faceEx` in a 100x100
image, written out explicitly (proved equal below). -/
def ctxBigEx : RuleContext :=
  ⟨[("left_eye_inner", pixelEx), ("left_eye_outer", pixelEx),
    ("right_eye_inner", pixelEx), ("right_eye_outer", pixelEx),
    ("nose_tip", pixelEx), ("nose_bridge_high", pixelEx),
    ("left_alae", pixelEx), ("right_alae", pixelEx),
    ("upper_lip_center", pixelEx), ("lower_lip_center", pixelEx),
    ("left_mouth_corner", pixelEx), ("right_mouth_corner", pixelEx),
    ("left_eyebrow_inner", pixelEx), ("left_eyebrow_center", pixelEx),
    ("left_eyebrow_peak", pixelEx), ("right_eyebrow_inner", pixelEx),
    ("right_eyebrow_center", pixelEx), ("right_eyebrow_peak", pixelEx),
    ("chin_tip", pixelEx), ("forehead_center", pixelEx),
    ("left_eye_center", pixelEx), ("right_eye_center", pixelEx),
    ("eyebrow_center_midpoint", pixelEx)],
   ⟨0, 0, 100, 100⟩, (100, 100), 1⟩

set_option maxRecDepth 8192 in
set_option maxHeartbeats 1000000 in
/-- Evaluation of the rule context for `faceEx`. -/
theorem createRuleContext_faceEx : createRuleContext faceEx (100, 100) = ctxBigEx := by
  simp +decide [createRuleContext, landmarkMapping, addDerivedLandmarks,
    midpointOf, faceEx, List.get?_eq_getElem?, List.getElem?_replicate,
    List.lookup, ctxBigEx, pixelEx]
  norm_num

/-! ## General lemmas about the safety validator -/

/-- The spacing predicate enforced by `_check_point_spacing`, as a relation:
the two points are at least `m` apart (in the squared form). -/
def spacedApart (m : ℚ) (a b : InjectionPoint) : Prop :=
  ¬ distSq a.position b.position < m * m

theorem distSq_comm (p q : Point) : distSq p q = distSq q p := by
  unfold distSq; ring

theorem spacedApart_symm {m : ℚ} {a b : InjectionPoint}
    (h : spacedApart m a b) : spacedApart m b a := by
  unfold spacedApart at h ⊢
  rwa [distSq_comm]

theorem spacedApart_symmetric (m : ℚ) : Symmetric (spacedApart m) :=
  fun _ _ h => spacedApart_symm h

theorem checkPointSpacing_eq_true {p : InjectionPoint} {l : List InjectionPoint}
    {m : ℚ} : checkPointSpacing p l m = true ↔ ∀ q ∈ l, spacedApart m p q := by
  simp [checkPointSpacing, spacedApart]

theorem demotePoint_def (zones : List RiskZone) (p : InjectionPoint) :
    demotePoint zones p =
      if (dangerZoneViolations p zones).isEmpty then p
      else { p with warnings := p.warnings ++ dangerZoneViolations p zones,
                    confidence := p.confidence * (1 / 2) } := rfl

theorem demotePoint_position (zones : List RiskZone) (p : InjectionPoint) :
    (demotePoint zones p).position = p.position := by
  rw [demotePoint_def]
  split <;> rfl

theorem demotePoint_of_violations {zones : List RiskZone} {p : InjectionPoint}
    (h : dangerZoneViolations p zones ≠ []) :
    demotePoint zones p =
      { p with warnings := p.warnings ++ dangerZoneViolations p zones,
               confidence := p.confidence * (1 / 2) } := by
  rw [demotePoint_def, if_neg]
  simpa using h

theorem validateStep_eq_append {zones : List RiskZone} {m : ℚ}
    {acc : List InjectionPoint} {p : InjectionPoint}
    (h : checkPointSpacing (demotePoint zones p) acc m = true) :
    validateStep zones m acc p = acc ++ [demotePoint zones p] := by
  unfold validateStep
  dsimp only
  rw [if_pos h]

theorem validateStep_eq_acc {zones : List RiskZone} {m : ℚ}
    {acc : List InjectionPoint} {p : InjectionPoint}
    (h : checkPointSpacing (demotePoint zones p) acc m = false) :
    validateStep zones m acc p = acc := by
  unfold validateStep
  dsimp only
  rw [if_neg]
  simp [h]

theorem mem_foldl_validateStep {zones : List RiskZone} {m : ℚ}
    {q : InjectionPoint} :
    ∀ {l : List InjectionPoint} {acc : List InjectionPoint}, q ∈ acc →
      q ∈ List.foldl (validateStep zones m) acc l := by
  intro l
  induction l with
  | nil => intro acc h; simpa using h
  | cons p l ih =>
    intro acc h
    rw [List.foldl_cons]
    apply ih
    unfold validateStep
    dsimp only
    split
    · exact List.mem_append_left _ h
    · exact h

theorem pairwise_foldl_validateStep (zones : List RiskZone) (m : ℚ) :
    ∀ (l acc : List InjectionPoint), acc.Pairwise (spacedApart m) →
      (List.foldl (validateStep zones m) acc l).Pairwise (spacedApart m) := by
  intro l
  induction l with
  | nil => intro acc h; simpa using h
  | cons p l ih =>
    intro acc h
    rw [List.foldl_cons]
    apply ih
    unfold validateStep
    dsimp only
    split
    · next hsp =>
      rw [List.pairwise_append]
      refine ⟨h, List.pairwise_singleton _ _, ?_⟩
      intro a ha b hb
      rw [List.mem_singleton] at hb
      subst hb
      exact spacedApart_symm (checkPointSpacing_eq_true.mp hsp a ha)
    · exact h

theorem insertSorted_perm {α : Type} (lt : α → α → Bool) (x : α) :
    ∀ l : List α, (insertSorted lt x l).Perm (x :: l)
  | [] => List.Perm.refl _
  | y :: ys => by
    unfold insertSorted
    split
    · exact List.Perm.refl _
    · exact ((insertSorted_perm lt x ys).cons y).trans (List.Perm.swap x y ys)

theorem stableSort_perm {α : Type} (lt : α → α → Bool) (l : List α) :
    (stableSort lt l).Perm l := by
  suffices h : ∀ (l acc : List α),
      (List.foldl (fun acc x => insertSorted lt x acc) acc l).Perm (acc ++ l) by
    simpa using h l []
  intro l
  induction l with
  | nil => intro acc; simp
  | cons x l ih =>
    intro acc
    rw [List.foldl_cons]
    refine (ih (insertSorted lt x acc)).trans ?_
    refine ((insertSorted_perm lt x acc).append_right l).trans ?_
    exact List.perm_middle.symm

theorem validate_injection_safety_length_le (points : List InjectionPoint)
    (zones : List RiskZone) (area : String) :
    (validate_injection_safety points zones area).length
      ≤ (safetyRules area).maxPoints := by
  unfold validate_injection_safety
  dsimp only
  split
  · simp
  · split
    · next h => simp [List.length_take]
    · next h => exact Nat.le_of_not_lt h

theorem validate_injection_safety_pairwise (points : List InjectionPoint)
    (zones : List RiskZone) (area : String) :
    (validate_injection_safety points zones area).Pairwise
      (spacedApart (safetyRules area).minPointDistance) := by
  unfold validate_injection_safety
  dsimp only
  split
  · simp
  · have hval := pairwise_foldl_validateStep zones
      (safetyRules area).minPointDistance points [] List.Pairwise.nil
    split
    · refine List.Pairwise.sublist (List.take_sublist _ _) ?_
      refine ((stableSort_perm confidenceDesc _).pairwise_iff ?_).mpr hval
      intro a b h
      exact spacedApart_symm h
    · exact hval

theorem foldl_validateStep_of_pairwise (zones : List RiskZone) (m : ℚ) :
    ∀ (l acc : List InjectionPoint), l.Pairwise (spacedApart m) →
      (∀ p ∈ l, ∀ q ∈ acc, spacedApart m p q) →
      List.foldl (validateStep zones m) acc l
        = acc ++ l.map (demotePoint zones) := by
  intro l
  induction l with
  | nil => intro acc _ _; simp
  | cons p l ih =>
    intro acc hpw hacc
    rw [List.foldl_cons]
    have hsp : checkPointSpacing (demotePoint zones p) acc m = true := by
      rw [checkPointSpacing_eq_true]
      intro q hq
      have h := hacc p (List.mem_cons_self p l) q hq
      unfold spacedApart at h ⊢
      rwa [demotePoint_position]
    have hstep : validateStep zones m acc p = acc ++ [demotePoint zones p] := by
      unfold validateStep
      dsimp only
      rw [if_pos hsp]
    rw [hstep]
    rw [ih (acc ++ [demotePoint zones p]) (List.pairwise_cons.mp hpw).2 ?_]
    · simp
    · intro p' hp' q hq
      rcases List.mem_append.mp hq with hq | hq
      · exact hacc p' (List.mem_cons_of_mem _ hp') q hq
      · rw [List.mem_singleton] at hq
        subst hq
        have h := (List.pairwise_cons.mp hpw).1 p' hp'
        unfold spacedApart at h ⊢
        rw [demotePoint_position, distSq_comm]
        exact h

/-! ## General lemmas about the rule engine batch -/

/-- A rule document that the injection-point batch accepts: its rule type is
supported and its interpreter returns a single point. -/
def producesPoint (ops : FloatOps) (ctx : RuleContext) (d : PointDef) : Prop :=
  d.rule.type ∈ supportedRuleTypes ∧
    ∃ p, applyRule ops d.rule ctx = some (RuleOutput.point p)

theorem injectionPointStep_of_success (ops : FloatOps) (ctx : RuleContext)
    (acc : List InjectionPoint) (d : PointDef) (p : Point)
    (hmem : d.rule.type ∈ supportedRuleTypes)
    (happ : applyRule ops d.rule ctx = some (RuleOutput.point p)) :
    injectionPointStep ops ctx acc d
      = acc ++ [⟨d.label, p, ctx.confidence * (9 / 10), d.warnings⟩] := by
  unfold injectionPointStep
  rw [if_pos hmem, happ]

theorem injectionPointStep_of_unsupported (ops : FloatOps) (ctx : RuleContext)
    (acc : List InjectionPoint) (d : PointDef)
    (hmem : d.rule.type ∉ supportedRuleTypes) :
    injectionPointStep ops ctx acc d = acc := by
  unfold injectionPointStep
  rw [if_neg hmem]

theorem length_foldl_injectionPointStep_le (ops : FloatOps) (ctx : RuleContext) :
    ∀ (l : List PointDef) (acc : List InjectionPoint),
      (List.foldl (injectionPointStep ops ctx) acc l).length
        ≤ acc.length + l.length := by
  intro l
  induction l with
  | nil => intro acc; simp
  | cons d l ih =>
    intro acc
    rw [List.foldl_cons]
    have hstep : (injectionPointStep ops ctx acc d).length ≤ acc.length + 1 := by
      unfold injectionPointStep
      split
      · split <;> simp
      · simp
    calc (List.foldl (injectionPointStep ops ctx) (injectionPointStep ops ctx acc d) l).length
        ≤ (injectionPointStep ops ctx acc d).length + l.length := ih _
      _ ≤ acc.length + 1 + l.length := Nat.add_le_add_right hstep _
      _ = acc.length + (d :: l).length := by simp only [List.length_cons]; omega

theorem length_foldl_injectionPointStep_success (ops : FloatOps) (ctx : RuleContext) :
    ∀ (l : List PointDef) (acc : List InjectionPoint),
      (∀ d ∈ l, producesPoint ops ctx d) →
      (List.foldl (injectionPointStep ops ctx) acc l).length
        = acc.length + l.length := by
  intro l
  induction l with
  | nil => intro acc _; simp
  | cons d l ih =>
    intro acc hall
    rw [List.foldl_cons]
    obtain ⟨hmem, p, happ⟩ := hall d (List.mem_cons_self d l)
    rw [injectionPointStep_of_success ops ctx acc d p hmem happ,
      ih _ fun d' hd' => hall d' (List.mem_cons_of_mem _ hd')]
    simp only [List.length_append, List.length_cons, List.length_nil]
    omega

theorem mem_foldl_injectionPointStep (ops : FloatOps) (ctx : RuleContext) :
    ∀ (l : List PointDef) (acc : List InjectionPoint) (ip : InjectionPoint),
      ip ∈ List.foldl (injectionPointStep ops ctx) acc l →
      ip ∈ acc ∨ ∃ d ∈ l, ∃ p, applyRule ops d.rule ctx = some (RuleOutput.point p)
        ∧ ip = ⟨d.label, p, ctx.confidence * (9 / 10), d.warnings⟩ := by
  intro l
  induction l with
  | nil => intro acc ip h; exact Or.inl (by simpa using h)
  | cons d l ih =>
    intro acc ip h
    rw [List.foldl_cons] at h
    rcases ih _ ip h with hmem | ⟨d', hd', hrest⟩
    · unfold injectionPointStep at hmem
      split at hmem
      · split at hmem
        · next p heq =>
          rcases List.mem_append.mp hmem with hl | hr
          · exact Or.inl hl
          · rw [List.mem_singleton] at hr
            exact Or.inr ⟨d, List.mem_cons_self d l, p, heq, hr⟩
        · exact Or.inl hmem
        · exact Or.inl hmem
      · exact Or.inl hmem
    · exact Or.inr ⟨d', List.mem_cons_of_mem _ hd', hrest⟩

theorem apply_landmark_vector_offset_bounds (rule : Rule) (ctx : RuleContext)
    (p : Point) (h1 : 1 ≤ ctx.imageShape.1) (h2 : 1 ≤ ctx.imageShape.2)
    (h : apply_landmark_vector_offset rule ctx = some p) :
    0 ≤ p.x ∧ p.x ≤ (ctx.imageShape.2 : ℚ) - 1
    ∧ 0 ≤ p.y ∧ p.y ≤ (ctx.imageShape.1 : ℚ) - 1 := by
  unfold apply_landmark_vector_offset at h
  dsimp only at h
  split at h
  · exact absurd h (by simp)
  · split at h
    · exact absurd h (by simp)
    · have hp := (Option.some.injEq _ _).mp h
      subst hp
      have hw : (0 : ℚ) ≤ (ctx.imageShape.2 : ℚ) - 1 := by
        have : (1 : ℚ) ≤ (ctx.imageShape.2 : ℚ) := by exact_mod_cast h2
        linarith
      have hh : (0 : ℚ) ≤ (ctx.imageShape.1 : ℚ) - 1 := by
        have : (1 : ℚ) ≤ (ctx.imageShape.1 : ℚ) := by exact_mod_cast h1
        linarith
      dsimp only
      refine ⟨le_max_left _ _, max_le hw (min_le_left _ _),
        le_max_left _ _, max_le hh (min_le_left _ _)⟩

theorem length_filterMap_of_isSome {α β : Type} (f : α → Option β) :
    ∀ l : List α, (∀ a ∈ l, (f a).isSome) → (l.filterMap f).length = l.length := by
  intro l
  induction l with
  | nil => intro _; simp
  | cons a l ih =>
    intro h
    obtain ⟨b, hb⟩ := Option.isSome_iff_exists.mp (h a (List.mem_cons_self a l))
    rw [List.filterMap_cons, hb]
    simp [ih fun a' ha' => h a' (List.mem_cons_of_mem _ ha')]

theorem createRuleContext_imageShape (face : NormalizedFace) (shape : ℕ × ℕ) :
    (createRuleContext face shape).imageShape = shape := rfl

/-! ## Evaluation lemmas for the concrete instances -/

theorem violatesZone_pEx_zoneEx : violatesZone pEx zoneEx = true := by
  simp +decide [violatesZone, pointWithinOfPolygon, polygonEdges,
    pointToSegmentDistSq, distSq, minDistanceToDanger, pEx, zoneEx, List.rotate]
  norm_num [min_def, max_def]

theorem violatesZone_pEx_zoneEx2 : violatesZone pEx zoneEx2 = true := by
  simp +decide [violatesZone, pointWithinOfPolygon, polygonEdges,
    pointToSegmentDistSq, distSq, minDistanceToDanger, pEx, zoneEx2, List.rotate]
  norm_num [min_def, max_def]

set_option maxRecDepth 8192 in
theorem applyRule_lvoRuleEx :
    applyRule floatOpsApprox lvoRuleEx (createRuleContext faceEx (100, 100))
      = some (RuleOutput.point ⟨99, 99⟩) := by
  rw [createRuleContext_faceEx]
  simp +decide [applyRule, apply_landmark_vector_offset, lvoRuleEx, ctxBigEx,
    pixelEx, List.lookup, List.range_succ]
  norm_num [min_def, max_def]

theorem apply_injection_point_rules_lvoDocEx :
    apply_injection_point_rules floatOpsApprox [lvoDocEx] faceEx (100, 100)
      = [⟨"LVO point", ⟨99, 99⟩, 9 / 10, []⟩] := by
  unfold apply_injection_point_rules
  dsimp only
  rw [List.foldl_cons, List.foldl_nil,
    injectionPointStep_of_success _ _ _ _ _ (by decide) applyRule_lvoRuleEx]
  rw [createRuleContext_faceEx]
  simp [ctxBigEx, lvoDocEx]

/-! ## Claims -/

/-- C3. The spec says `landmark_vector_offset` returns `None` both when the
total anchor weight is 0 and when no listed anchor resolves.  The code only
implements the first case: with default weights and a single unresolvable
anchor the weighted sums stay `(0, 0)` while the total weight is 1, so the
rule returns the clamped point `(0, 0)` instead of `None` — the failing
input of the code bug.  The second conjunct confirms the weight-0 half. -/
theorem unresolved_anchors_give_point_not_none :
    apply_landmark_vector_offset ruleNoResolveEx ctxSmallEx = some ⟨0, 0⟩
    ∧ apply_landmark_vector_offset ruleZeroWeightEx ctxSmallEx = none := by
  constructor
  · simp +decide [apply_landmark_vector_offset, ruleNoResolveEx, ctxSmallEx,
      List.lookup, List.range_succ]
  · simp +decide [apply_landmark_vector_offset, ruleZeroWeightEx, ctxSmallEx,
      List.lookup, List.range_succ]

/-- C4. On each of the three fallback branches (scaled template, no
template, fallback-generation error) the response has `fallback_used =
true`, an empty risk-zone list, and a confidence score of at most 0.3. -/
theorem fallback_conservative (area : String) (shape : ℕ × ℕ)
    (load : FallbackLoad) :
    (generate_fallback_response area shape load).fallbackUsed = true
    ∧ (generate_fallback_response area shape load).riskZones = []
    ∧ (generate_fallback_response area shape load).confidenceScore ≤ 3 / 10 := by
  cases load <;> exact ⟨rfl, rfl, by norm_num [generate_fallback_response]⟩

/-- C7. On the spec's example — zone A critical with bbox 0..10, zone B low
with bbox 2..8, overlap ratio 1 over B's bbox — `filter_overlapping_zones`
returns exactly `[A]` for both input orders. -/
theorem zone_dedup_order_independent_example :
    filter_overlapping_zones [zoneA, zoneB] = [zoneA]
    ∧ filter_overlapping_zones [zoneB, zoneA] = [zoneA] := by
  constructor
  · simp +decide [filter_overlapping_zones, stableSort, insertSorted, severityAsc,
      severityOrder, zonesOverlapSignificantly, getPolygonBbox, zoneA, zoneB]
    norm_num [min_def, max_def]
  · simp +decide [filter_overlapping_zones, stableSort, insertSorted, severityAsc,
      severityOrder, zonesOverlapSignificantly, getPolygonBbox, zoneA, zoneB]
    norm_num [min_def, max_def]

/-- C8. The confidence scorer returns exactly
`max(0.1, min(1, 0.5*landmark + 0.3*normalization + 0.2*min(1, (p+z)/8)))`,
and the result always lies in `[0.1, 1]`. -/
theorem confidence_score_formula_and_clamp (lc nc : ℚ) (np nz : ℕ) :
    calculate_confidence_score lc nc np nz
      = max (1 / 10) (min 1 (lc * (1 / 2) + nc * (3 / 10)
          + min 1 (((np : ℚ) + (nz : ℚ)) / 8) * (1 / 5)))
    ∧ 1 / 10 ≤ calculate_confidence_score lc nc np nz
    ∧ calculate_confidence_score lc nc np nz ≤ 1 := by
  refine ⟨rfl, le_max_left _ _, ?_⟩
  unfold calculate_confidence_score
  dsimp only
  exact max_le (by norm_num) (min_le_left _ _)

/-- C1. A candidate point within the clearance threshold of at least one
risk zone is not dropped at the zone check: it is demoted (confidence
exactly halved, so at most 0.5 times the input, and at least one violation
warning appended) and still enters the accepted list whenever the spacing
check against the accumulated points passes; when the accepted list also
fits under the area's point cap, the demoted point appears in the list
returned by `validate_injection_safety`. -/
theorem zone_violation_demotes_and_retains (zones : List RiskZone)
    (area : String) (pre post : List InjectionPoint) (p : InjectionPoint)
    (hviol : ∃ z ∈ zones, violatesZone p z = true)
    (hspace : checkPointSpacing (demotePoint zones p)
        (List.foldl (validateStep zones (safetyRules area).minPointDistance) [] pre)
        (safetyRules area).minPointDistance = true) :
    demotePoint zones p ∈
        List.foldl (validateStep zones (safetyRules area).minPointDistance) []
          (pre ++ p :: post)
    ∧ ((List.foldl (validateStep zones (safetyRules area).minPointDistance) []
            (pre ++ p :: post)).length ≤ (safetyRules area).maxPoints →
        demotePoint zones p ∈ validate_injection_safety (pre ++ p :: post) zones area)
    ∧ (demotePoint zones p).confidence = p.confidence * (1 / 2)
    ∧ p.warnings.length < (demotePoint zones p).warnings.length := by
  obtain ⟨z, hz, hv⟩ := hviol
  have hne : dangerZoneViolations p zones ≠ [] := by
    have hzmem : z ∈ zones.filter fun z => violatesZone p z :=
      List.mem_filter.mpr ⟨hz, hv⟩
    exact List.ne_nil_of_mem (List.mem_map_of_mem violationMsg hzmem)
  have hmem : demotePoint zones p ∈
      List.foldl (validateStep zones (safetyRules area).minPointDistance) []
        (pre ++ p :: post) := by
    rw [List.foldl_append, List.foldl_cons]
    apply mem_foldl_validateStep
    rw [validateStep_eq_append hspace]
    exact List.mem_append_right _ (List.mem_singleton.mpr rfl)
  refine ⟨hmem, ?_, ?_, ?_⟩
  · intro hlen
    unfold validate_injection_safety
    simp only
    rw [if_neg (by simp), if_neg (Nat.not_lt.mpr hlen)]
    exact hmem
  · rw [demotePoint_of_violations hne]
  · rw [demotePoint_of_violations hne]
    dsimp only
    rw [List.length_append]
    have hpos := List.length_pos.mpr hne
    omega

/-- C1, witness: the point `(1, 1)` violates the critical zone `zoneEx`, is
still returned by the validator, with confidence 0.5 and one warning. -/
theorem zone_violation_demotes_and_retains_witness :
    demotePoint [zoneEx] pEx ∈ validate_injection_safety [pEx] [zoneEx] "lips"
    ∧ (demotePoint [zoneEx] pEx).confidence = pEx.confidence * (1 / 2)
    ∧ pEx.warnings.length < (demotePoint [zoneEx] pEx).warnings.length := by
  have h := zone_violation_demotes_and_retains [zoneEx] "lips" [] [] pEx
    ⟨zoneEx, List.mem_singleton.mpr rfl, violatesZone_pEx_zoneEx⟩ rfl
  refine ⟨h.2.1 ?_, h.2.2.1, h.2.2.2⟩
  simp only [List.nil_append, List.foldl_cons, List.foldl_nil]
  unfold validateStep
  dsimp only
  split <;> simp [safetyRules]

/-- C10. Inside one run of the validator's zone check, a point that
violates `k ≥ 1` zones has its confidence multiplied by 0.5 exactly once
(not `0.5^k`), while exactly one violation message per violating zone is
appended to its warnings. -/
theorem multiple_zone_violations_halve_once (zones : List RiskZone)
    (p : InjectionPoint)
    (h : 0 < (zones.filter fun z => violatesZone p z).length) :
    (demotePoint zones p).confidence = p.confidence * (1 / 2)
    ∧ (demotePoint zones p).warnings = p.warnings ++ dangerZoneViolations p zones
    ∧ (dangerZoneViolations p zones).length
        = (zones.filter fun z => violatesZone p z).length := by
  have hne : dangerZoneViolations p zones ≠ [] := by
    unfold dangerZoneViolations
    intro hcontra
    rw [List.map_eq_nil_iff] at hcontra
    rw [hcontra] at h
    exact absurd h (by simp)
  rw [demotePoint_of_violations hne]
  exact ⟨rfl, rfl, List.length_map _ _⟩

/-- C10, witness: `pEx` violates both fixture zones (`k = 2`); its
confidence is halved once and exactly two messages are appended. -/
theorem multiple_zone_violations_halve_once_witness :
    (demotePoint [zoneEx, zoneEx2] pEx).confidence = pEx.confidence * (1 / 2)
    ∧ (demotePoint [zoneEx, zoneEx2] pEx).warnings
        = pEx.warnings ++ dangerZoneViolations pEx [zoneEx, zoneEx2]
    ∧ (dangerZoneViolations pEx [zoneEx, zoneEx2]).length
        = ([zoneEx, zoneEx2].filter fun z => violatesZone pEx z).length :=
  multiple_zone_violations_halve_once [zoneEx, zoneEx2] pEx
    (by simp [List.filter, violatesZone_pEx_zoneEx, violatesZone_pEx_zoneEx2])

set_option maxRecDepth 8192 in
set_option maxHeartbeats 1000000 in
/-- C2, counterexample: a `bone_point` document whose anchor lands at pixel
`(99.9, 99.9)` in a 100x100 image (all landmarks of `faceEx` map there) is
returned unclamped by `apply_injection_point_rules`, and `99.9` exceeds the
claimed bound `width - 1 = 99` — so not every produced injection point lies
within the image bounds. -/
theorem bone_point_escapes_image_bounds :
    (apply_injection_point_rules floatOpsApprox [boneDocEx] faceEx (100, 100)).map
        (fun ip => ip.position) = [⟨999/10, 999/10⟩]
    ∧ ¬ ((999/10 : ℚ) ≤ (100 : ℚ) - 1) := by
  constructor
  · simp +decide [apply_injection_point_rules, createRuleContext_faceEx,
      injectionPointStep, applyRule, apply_bone_point, supportedRuleTypes,
      boneDocEx, boneRuleEx, ctxBigEx, pixelEx, List.lookup]
  · norm_num

/-- C2, amended: points produced by `landmark_vector_offset` documents are
clamped to the image bounds (for a positive image size); `bone_point`
results are not clamped and can lie outside the image (see the
counterexample). -/
theorem landmark_vector_offset_rules_within_bounds (ops : FloatOps)
    (defs : List PointDef) (face : NormalizedFace) (shape : ℕ × ℕ)
    (h1 : 1 ≤ shape.1) (h2 : 1 ≤ shape.2)
    (hkinds : ∀ d ∈ defs, d.rule.type = "landmark_vector_offset")
    (ip : InjectionPoint)
    (hip : ip ∈ apply_injection_point_rules ops defs face shape) :
    0 ≤ ip.position.x ∧ ip.position.x ≤ ((shape.2 : ℕ) : ℚ) - 1
    ∧ 0 ≤ ip.position.y ∧ ip.position.y ≤ ((shape.1 : ℕ) : ℚ) - 1 := by
  unfold apply_injection_point_rules at hip
  rcases mem_foldl_injectionPointStep ops (createRuleContext face shape) defs []
      ip hip with hmem | ⟨d, hd, q, happ, hip_eq⟩
  · exact absurd hmem (by simp)
  · have htype := hkinds d hd
    unfold applyRule at happ
    rw [htype, if_pos rfl] at happ
    obtain ⟨p, hp, hpq⟩ := Option.map_eq_some'.mp happ
    have hqp : p = q := by
      cases hpq
      rfl
    subst hqp
    subst hip_eq
    have hb := apply_landmark_vector_offset_bounds d.rule
      (createRuleContext face shape) p h1 h2 hp
    exact hb

/-- C2, amended, witness: the clamped output of a `landmark_vector_offset`
document on `faceEx` (pixel 99.9 clamped to 99) lies within the bounds. -/
theorem landmark_vector_offset_rules_within_bounds_witness :
    0 ≤ ((⟨"LVO point", ⟨99, 99⟩, 9 / 10, []⟩ : InjectionPoint)).position.x
    ∧ ((⟨"LVO point", ⟨99, 99⟩, 9 / 10, []⟩ : InjectionPoint)).position.x
        ≤ (((100, 100).2 : ℕ) : ℚ) - 1
    ∧ 0 ≤ ((⟨"LVO point", ⟨99, 99⟩, 9 / 10, []⟩ : InjectionPoint)).position.y
    ∧ ((⟨"LVO point", ⟨99, 99⟩, 9 / 10, []⟩ : InjectionPoint)).position.y
        ≤ (((100, 100).1 : ℕ) : ℚ) - 1 :=
  landmark_vector_offset_rules_within_bounds floatOpsApprox [lvoDocEx] faceEx
    (100, 100) (by norm_num) (by norm_num)
    (by
      intro d hd
      rw [List.mem_singleton] at hd
      subst hd
      rfl)
    ⟨"LVO point", ⟨99, 99⟩, 9 / 10, []⟩
    (by rw [apply_injection_point_rules_lvoDocEx]; exact List.mem_singleton.mpr rfl)

/-- C5. When exactly one document in the batch has an unsupported rule type
and every other document produces a point, `apply_injection_point_rules`
returns one result fewer than the number of input documents; and for any
input list whatsoever the output length is at most the input length — the
batch is a total function (the per-document `try`/`except` of the source is
modelled by the `Option`-valued interpreters), so it never aborts. -/
theorem unknown_rule_kind_skipped_batch_total (ops : FloatOps)
    (face : NormalizedFace) (shape : ℕ × ℕ) (pre post : List PointDef)
    (bad : PointDef) (hbad : bad.rule.type ∉ supportedRuleTypes)
    (hok : ∀ d ∈ pre ++ post, producesPoint ops (createRuleContext face shape) d) :
    (apply_injection_point_rules ops (pre ++ bad :: post) face shape).length
      = (pre ++ bad :: post).length - 1
    ∧ ∀ defs : List PointDef,
        (apply_injection_point_rules ops defs face shape).length ≤ defs.length := by
  constructor
  · unfold apply_injection_point_rules
    rw [List.foldl_append, List.foldl_cons,
      injectionPointStep_of_unsupported _ _ _ _ hbad]
    rw [length_foldl_injectionPointStep_success ops (createRuleContext face shape)
      post _ fun d hd => hok d (List.mem_append_right _ hd)]
    rw [length_foldl_injectionPointStep_success ops (createRuleContext face shape)
      pre _ fun d hd => hok d (List.mem_append_left _ hd)]
    simp only [List.length_nil, List.length_append, List.length_cons]
    omega
  · intro defs
    unfold apply_injection_point_rules
    simpa using length_foldl_injectionPointStep_le ops
      (createRuleContext face shape) defs []

/-- C5, witness: a batch of three documents in which the middle one has the
unsupported type `"mystery_rule"` and the two others produce points yields
exactly two results. -/
theorem unknown_rule_kind_skipped_batch_total_witness :
    (apply_injection_point_rules floatOpsApprox [lvoDocEx, badDocEx, lvoDocEx]
        faceEx (100, 100)).length
      = ([lvoDocEx, badDocEx, lvoDocEx] : List PointDef).length - 1 :=
  (unknown_rule_kind_skipped_batch_total floatOpsApprox faceEx (100, 100)
    [lvoDocEx] [lvoDocEx] badDocEx (by decide)
    (by
      intro d hd
      have hdl : d = lvoDocEx := by
        rcases List.mem_append.mp hd with h | h <;>
          simpa using h
      subst hdl
      exact ⟨by decide, ⟨99, 99⟩, applyRule_lvoRuleEx⟩)).1

/-- C9, counterexample: an `ellipse_around_landmarks` document listing two
anchors of which only one resolves (at `(10, 10)`).  The centroid of the
resolved anchors is `(10, 10)`, but the code divides the resolved sum by
the number of *listed* anchors, centring the ellipse at `(5, 5)` instead —
the unresolved anchor shifts the centre. -/
theorem unresolved_anchor_shifts_ellipse_center :
    resolvedAnchors ruleEllipseEx.anchors ctxEllipseEx = [⟨10, 10⟩]
    ∧ apply_ellipse_around_landmarks floatOpsApprox ruleEllipseEx ctxEllipseEx
        = some (createEllipsePolygon floatOpsApprox ⟨5, 5⟩ 4 4)
    ∧ apply_ellipse_around_landmarks floatOpsApprox ruleEllipseEx ctxEllipseEx
        ≠ some (createEllipsePolygon floatOpsApprox ⟨10, 10⟩ 4 4) := by
  refine ⟨?_, ?_, ?_⟩
  · simp +decide [resolvedAnchors, ruleEllipseEx, ctxEllipseEx, List.lookup]
  · simp +decide [apply_ellipse_around_landmarks, resolvedAnchors, ruleEllipseEx,
      ctxEllipseEx, List.lookup, createEllipsePolygon]
    norm_num
  · simp +decide [apply_ellipse_around_landmarks, resolvedAnchors, ruleEllipseEx,
      ctxEllipseEx, List.lookup, createEllipsePolygon, floatOpsApprox,
      cosSin16ApproxList, List.finRange]
    norm_num

/-- C9, amended: when the anchor list is non-empty and *every* listed
anchor resolves, the result is the 16-vertex ellipse polygon centred at the
centroid of the resolved anchors; when an anchor fails to resolve the
centre is the resolved sum divided by the number of listed anchors instead
(see the counterexample). -/
theorem ellipse_centroid_when_all_anchors_resolve (ops : FloatOps)
    (rule : Rule) (ctx : RuleContext) (hne : rule.anchors ≠ [])
    (hres : ∀ a ∈ rule.anchors, (ctx.landmarks.lookup a).isSome) :
    apply_ellipse_around_landmarks ops rule ctx
      = some (createEllipsePolygon ops
          ⟨((resolvedAnchors rule.anchors ctx).map Point.x).sum
              / ((resolvedAnchors rule.anchors ctx).length : ℚ),
           ((resolvedAnchors rule.anchors ctx).map Point.y).sum
              / ((resolvedAnchors rule.anchors ctx).length : ℚ)⟩
          (rule.width.getD 20) (rule.height.getD 15))
    ∧ (createEllipsePolygon ops
          ⟨((resolvedAnchors rule.anchors ctx).map Point.x).sum
              / ((resolvedAnchors rule.anchors ctx).length : ℚ),
           ((resolvedAnchors rule.anchors ctx).map Point.y).sum
              / ((resolvedAnchors rule.anchors ctx).length : ℚ)⟩
          (rule.width.getD 20) (rule.height.getD 15)).length = 16 := by
  have hlen : (resolvedAnchors rule.anchors ctx).length = rule.anchors.length :=
    length_filterMap_of_isSome _ rule.anchors hres
  constructor
  · unfold apply_ellipse_around_landmarks
    rw [if_neg (by simpa [List.length_eq_zero] using hne)]
    rw [hlen]
  · unfold createEllipsePolygon
    simp

/-- C9, amended, witness: a fully-resolving document centres the 16-gon at
its single anchor `(10, 10)`. -/
theorem ellipse_centroid_when_all_anchors_resolve_witness :
    apply_ellipse_around_landmarks floatOpsApprox ruleEllipseOkEx ctxEllipseEx
      = some (createEllipsePolygon floatOpsApprox
          ⟨((resolvedAnchors ruleEllipseOkEx.anchors ctxEllipseEx).map Point.x).sum
              / ((resolvedAnchors ruleEllipseOkEx.anchors ctxEllipseEx).length : ℚ),
           ((resolvedAnchors ruleEllipseOkEx.anchors ctxEllipseEx).map Point.y).sum
              / ((resolvedAnchors ruleEllipseOkEx.anchors ctxEllipseEx).length : ℚ)⟩
          (ruleEllipseOkEx.width.getD 20) (ruleEllipseOkEx.height.getD 15))
    ∧ (createEllipsePolygon floatOpsApprox
          ⟨((resolvedAnchors ruleEllipseOkEx.anchors ctxEllipseEx).map Point.x).sum
              / ((resolvedAnchors ruleEllipseOkEx.anchors ctxEllipseEx).length : ℚ),
           ((resolvedAnchors ruleEllipseOkEx.anchors ctxEllipseEx).map Point.y).sum
              / ((resolvedAnchors ruleEllipseOkEx.anchors ctxEllipseEx).length : ℚ)⟩
          (ruleEllipseOkEx.width.getD 20) (ruleEllipseOkEx.height.getD 15)).length
        = 16 :=
  ellipse_centroid_when_all_anchors_resolve floatOpsApprox ruleEllipseOkEx
    ctxEllipseEx (by decide) (by decide)

/-- On a pairwise well-spaced input that fits under the cap, the validator
accepts every point, only applying the zone-check demotion. -/
theorem validate_injection_safety_of_pairwise (points : List InjectionPoint)
    (zones : List RiskZone) (area : String)
    (hpw : points.Pairwise (spacedApart (safetyRules area).minPointDistance))
    (hlen : points.length ≤ (safetyRules area).maxPoints) :
    validate_injection_safety points zones area
      = points.map (demotePoint zones) := by
  cases points with
  | nil => simp [validate_injection_safety]
  | cons p l =>
    unfold validate_injection_safety
    rw [if_neg (by simp)]
    simp only
    rw [foldl_validateStep_of_pairwise zones (safetyRules area).minPointDistance
      (p :: l) [] hpw (by intro a _ b hb; simp at hb)]
    rw [if_neg]
    · simp
    · simp only [List.nil_append, List.length_map]
      exact Nat.not_lt.mpr (by simpa using hlen)

/-- Evaluation of one validator run on the fixture: the point is demoted
(confidence 0.5, one warning) but kept. -/
theorem validate_pEx_once :
    validate_injection_safety [pEx] [zoneEx] "lips"
      = [⟨"P1", ⟨1, 1⟩, 1/2, ["Too close to Arteria labialis"]⟩] := by
  simp +decide [validate_injection_safety, validateStep, demotePoint,
    dangerZoneViolations, violatesZone, pointWithinOfPolygon, polygonEdges,
    pointToSegmentDistSq, distSq, minDistanceToDanger, checkPointSpacing,
    safetyRules, violationMsg, pEx, zoneEx, List.rotate, List.filter]
  norm_num [min_def, max_def]
  decide

/-- Evaluation of the second validator run on the output of the first: the
same point is demoted again (confidence 0.25, a second copy of the
warning). -/
theorem validate_pEx_twice :
    validate_injection_safety
      [(⟨"P1", ⟨1, 1⟩, 1/2, ["Too close to Arteria labialis"]⟩ : InjectionPoint)]
      [zoneEx] "lips"
      = [⟨"P1", ⟨1, 1⟩, 1/4, ["Too close to Arteria labialis",
          "Too close to Arteria labialis"]⟩] := by
  simp +decide [validate_injection_safety, validateStep, demotePoint,
    dangerZoneViolations, violatesZone, pointWithinOfPolygon, polygonEdges,
    pointToSegmentDistSq, distSq, minDistanceToDanger, checkPointSpacing,
    safetyRules, violationMsg, zoneEx, List.rotate, List.filter]
  norm_num [min_def, max_def]
  decide

/-- C6, counterexample: re-running `validate_injection_safety` on its own
output is *not* the identity on the point records — a zone-violating point
is demoted again (its confidence is halved a second time and the violation
warning appended again), so the returned list differs from the input. -/
theorem validator_not_idempotent_on_records :
    validate_injection_safety
        (validate_injection_safety [pEx] [zoneEx] "lips") [zoneEx] "lips"
      ≠ validate_injection_safety [pEx] [zoneEx] "lips" := by
  rw [validate_pEx_once, validate_pEx_twice]
  simp

/-- C6, amended: (i) a candidate point whose distance to some
already-accepted point is below the area's minimum spacing is excluded from
the returned list — the run on `pre ++ p :: post` returns exactly the run
on `pre ++ post`; (ii) re-running the validator on its own output preserves
the accepted *points* (same length, same positions, in the same order) —
only the demotion metadata (confidence, warnings) of zone-violating points
changes again, as the counterexample shows. -/
theorem spacing_exclusion_and_position_idempotence (zones : List RiskZone)
    (area : String) :
    (∀ (pre post : List InjectionPoint) (p : InjectionPoint),
        checkPointSpacing (demotePoint zones p)
            (List.foldl (validateStep zones (safetyRules area).minPointDistance) [] pre)
            (safetyRules area).minPointDistance = false →
        validate_injection_safety (pre ++ p :: post) zones area
          = validate_injection_safety (pre ++ post) zones area)
    ∧ ∀ points : List InjectionPoint,
        (validate_injection_safety (validate_injection_safety points zones area)
            zones area).map (fun ip => ip.position)
          = (validate_injection_safety points zones area).map fun ip => ip.position := by
  constructor
  · intro pre post p hfail
    have hpre : pre ≠ [] := by
      intro hcontra
      subst hcontra
      simp [checkPointSpacing] at hfail
    have hfold : List.foldl (validateStep zones (safetyRules area).minPointDistance)
        [] (pre ++ p :: post)
        = List.foldl (validateStep zones (safetyRules area).minPointDistance)
          [] (pre ++ post) := by
      rw [List.foldl_append, List.foldl_cons, validateStep_eq_acc hfail,
        ← List.foldl_append]
    unfold validate_injection_safety
    simp only
    rw [hfold]
    have h1 : (pre ++ p :: post).isEmpty = false := by simp
    have h2 : (pre ++ post).isEmpty = false := by
      cases pre with
      | nil => exact absurd rfl hpre
      | cons a l => simp
    rw [h1, h2]
  · intro points
    have hpw := validate_injection_safety_pairwise points zones area
    have hlen := validate_injection_safety_length_le points zones area
    rw [validate_injection_safety_of_pairwise _ zones area hpw hlen,
      List.map_map]
    simp [Function.comp_def, demotePoint_position]

/-- C6, amended, witness: with lips spacing 5px, the candidate 2px from an
already-accepted point is excluded — the run on both points returns the run
on the first alone. -/
theorem spacing_exclusion_and_position_idempotence_witness :
    validate_injection_safety [pFarEx, pNearEx] [] "lips"
      = validate_injection_safety [pFarEx] [] "lips" :=
  (spacing_exclusion_and_position_idempotence [] "lips").1 [pFarEx] [] pNearEx
    (by
      simp +decide [checkPointSpacing, demotePoint, dangerZoneViolations,
        validateStep, distSq, safetyRules, pFarEx, pNearEx]
      norm_num)

end RiskMap
